import Mathlib

/-!
# Model of the form-backend submission service

A shallow embedding of `src/server.js`: the honeypot spam classifier, the
in-memory rate limiter, the submit route, the submissions read endpoint, and
the dashboard aggregate queries. JavaScript objects parsed from JSON bodies
are association lists of `JSVal`; SQL tables are Lean lists of rows; the
`Date.now()` / `CURRENT_TIMESTAMP` clock is an `Int` argument threaded
explicitly.
-/

namespace FormBackend

/-- A JSON value as produced by `express.json()` body parsing (numbers are
modelled as integers; the claims only involve integral literals). -/
inductive JSVal where
  | str (s : String)
  | num (n : Int)
  | bool (b : Bool)
  | null
deriving DecidableEq, Repr

/-- JavaScript truthiness of a `JSVal` (`undefined` is represented by an
absent key, i.e. `Option.none` at the lookup). -/
def JSVal.truthy : JSVal → Bool
  | .str s => s ≠ ""
  | .num n => n ≠ 0
  | .bool b => b
  | .null => false

/-- JavaScript `toString()` rendering of a `JSVal`. -/
def JSVal.render : JSVal → String
  | .str s => s
  | .num n => toString n
  | .bool b => if b then "true" else "false"
  | .null => "null"

/-- The characters removed by JavaScript `String.prototype.trim()` that can
occur here: spaces, tabs and line breaks (`Char.isWhitespace`). -/
def trimChars (l : List Char) : List Char :=
  ((l.dropWhile Char.isWhitespace).reverse.dropWhile Char.isWhitespace).reverse

/-- JavaScript `trim()`: strip leading and trailing whitespace. (Defined over
the character list so that it evaluates by kernel reduction.) -/
def jsTrim (s : String) : String :=
  ⟨trimChars s.data⟩

/-- Property access `obj[key]` on a parsed JSON object. Keys of a parsed
object are unique, so first-match lookup is faithful. -/
def jsGet (body : List (String × JSVal)) (key : String) : Option JSVal :=
  body.lookup key

/-- server.js:245 — the honeypot spam check
`submissionData[honeypotField] && submissionData[honeypotField].toString().trim() !== ''`,
coerced to the boolean that `isSpam ? 1 : 0` stores: an absent or falsy value
yields `false`; a truthy value is flagged exactly when its string rendering
trims to a non-empty string. -/
def isSpam (honeypotField : String) (body : List (String × JSVal)) : Bool :=
  match jsGet body honeypotField with
  | none => false
  | some v => v.truthy && jsTrim v.render ≠ ""

/-- One rate-limiter key's recorded admission timestamps (milliseconds). -/
abbrev Window := List Int

/-- server.js:90-110 — `rateLimiter.consume` restricted to one key's list.
`validRequests` prunes entries with `now - time < windowMs` failing; a call is
denied when the pruned count has reached `maxRequests` (`>=` in the source),
and then nothing is written back; otherwise `now` is pushed and stored. -/
def consume (windowMs : Int) (maxRequests : Nat) (requests : Window) (now : Int) :
    Bool × Window :=
  let validRequests := requests.filter (fun t => now - t < windowMs)
  if maxRequests ≤ validRequests.length then
    (false, requests)
  else
    (true, validRequests ++ [now])

/-- Association-list update, the `Map.set` of `rateLimiter.requests`. -/
def mapSet (m : List (String × Window)) (key : String) (v : Window) :
    List (String × Window) :=
  match m with
  | [] => [(key, v)]
  | (k, w) :: rest =>
      if k == key then (key, v) :: rest else (k, w) :: mapSet rest key v

/-- server.js:90-110 — `rateLimiter.consume` on the whole per-key map. The
source first ensures the key is present (`set(key, [])` when absent), so after
a denied call the key still maps to its previous (possibly empty) list; after
an allowed call it maps to the pruned list with `now` appended. -/
def consumeMap (windowMs : Int) (maxRequests : Nat) (m : List (String × Window))
    (key : String) (now : Int) : Bool × List (String × Window) :=
  let requests := (m.lookup key).getD []
  match consume windowMs maxRequests requests now with
  | (true, upd) => (true, mapSet m key upd)
  | (false, _) => (false, mapSet m key requests)

/-- A sequence of `consume` calls for one key; the boolean records whether
every call in the sequence was allowed. -/
def runCalls (windowMs : Int) (maxRequests : Nat) (requests : Window) :
    List Int → Window × Bool
  | [] => (requests, true)
  | t :: ts =>
      let step := consume windowMs maxRequests requests t
      let rest := runCalls windowMs maxRequests step.2 ts
      (rest.1, step.1 && rest.2)

/-- A row of the `forms` table (server.js:55-63). -/
structure Form where
  id : String
  name : Option String
  owner_email : String
  honeypot_field : String
deriving DecidableEq, Repr

/-- A row of the `submissions` table (server.js:66-77). `rowid` is SQLite's
implicit rowid, i.e. the insertion sequence number; `created_at` is the
second-resolution `CURRENT_TIMESTAMP` at insert time. -/
structure Submission where
  id : String
  form_id : String
  data : List (String × JSVal)
  ip_address : Option String
  user_agent : Option String
  is_spam : Bool
  created_at : Int
  rowid : Nat
deriving DecidableEq, Repr

/-- server.js:177 — `const { honeypot_field = '_website' } = req.body`: the
destructuring default applies only when the property is absent (`undefined`);
an explicitly supplied string, including `""`, is kept as given and inserted. -/
def createForm (id : String) (name : Option String) (owner_email : String)
    (honeypot : Option String) : Form :=
  { id := id, name := name, owner_email := owner_email,
    honeypot_field := honeypot.getD "_website" }

/-- server.js:244 — `const honeypotField = form.honeypot_field`; the stored
name is used as-is, with no fallback at classification time. -/
def honeypotFieldUsed (form : Form) : String :=
  form.honeypot_field

/-- An HTTP response: status code and JSON body. -/
structure Response where
  status : Nat
  body : List (String × JSVal)
deriving DecidableEq, Repr

/-- server.js:234. -/
def tooManyRequests : Response := ⟨429, [("error", .str "Too many requests")]⟩

/-- server.js:240 and server.js:295. -/
def formNotFound : Response := ⟨404, [("error", .str "Form not found")]⟩

/-- server.js:270-273 — the uniform success acknowledgment. -/
def submitOk : Response :=
  ⟨200, [("success", .bool true), ("message", .str "Submission received")]⟩

/-- server.js:277 — the catch-all answer of the submit route. -/
def submitFailed : Response := ⟨500, [("error", .str "Submission failed")]⟩

/-- server.js:289. -/
def unauthorized : Response := ⟨401, [("error", .str "Unauthorized")]⟩

/-- The mutable state the routes touch: the two tables and the rate-limiter
map (`rateLimiter.requests`). -/
structure ServerState where
  forms : List Form
  submissions : List Submission
  rl : List (String × Window)
deriving DecidableEq, Repr

/-- `SELECT * FROM forms WHERE id = ?` (server.js:238, 293). -/
def findForm (forms : List Form) (formId : String) : Option Form :=
  forms.find? (fun f => f.id == formId)

/-- server.js:223-279 — the submit route handler. `newId` stands for the
generated UUID and `now` for the call's clock reading (used both by the rate
limiter and as the stored `created_at`). `notifyOk` is the outcome of the
awaited notification call `await mockSendEmail(...)` (server.js:261-267): the
shipped `mockSendEmail` only logs and returns, so the route as deployed is
`submitRoute` below with `notifyOk = true`; a rejection of that awaited call
would be caught by the route's surrounding try/catch (server.js:275-278),
which answers 500 after the insert has already committed — there is no
rollback and no dedicated catch around the notification. -/
def submitHandler (windowMs : Int) (maxRequests : Nat) (st : ServerState)
    (formId : String) (body : List (String × JSVal)) (ip ua : Option String)
    (newId : String) (now : Int) (notifyOk : Bool) : Response × ServerState :=
  match consumeMap windowMs maxRequests st.rl formId now with
  | (false, rl1) => (tooManyRequests, { st with rl := rl1 })
  | (true, rl1) =>
    match findForm st.forms formId with
    | none => (formNotFound, { st with rl := rl1 })
    | some form =>
      let spam := isSpam (honeypotFieldUsed form) body
      let sub : Submission :=
        { id := newId, form_id := formId, data := body, ip_address := ip,
          user_agent := ua, is_spam := spam, created_at := now,
          rowid := st.submissions.length }
      let st1 : ServerState :=
        { st with rl := rl1, submissions := st.submissions ++ [sub] }
      if notifyOk then (submitOk, st1) else (submitFailed, st1)

/-- The submit route as shipped: the notification call never rejects. -/
def submitRoute (windowMs : Int) (maxRequests : Nat) (st : ServerState)
    (formId : String) (body : List (String × JSVal)) (ip ua : Option String)
    (newId : String) (now : Int) : Response × ServerState :=
  submitHandler windowMs maxRequests st formId body ip ua newId now true

/-- The row multiset selected by the submissions query's WHERE clause
(server.js:300-305): `form_id = ?`, and `is_spam = 0` unless `spam=true`. -/
def submissionRows (subs : List Submission) (formId : String)
    (includeSpam : Bool) : List Submission :=
  subs.filter (fun s => s.form_id == formId && (includeSpam || !s.is_spam))

/-- `ORDER BY created_at DESC` (server.js:307): SQL fixes the multiset of
returned rows and that `created_at` is non-increasing along the result; the
relative order of rows with equal `created_at` is unspecified — the query has
no secondary sort key. `out` is a possible query result exactly when this
holds. -/
def IsQueryResult (subs : List Submission) (formId : String)
    (includeSpam : Bool) (out : List Submission) : Prop :=
  out.Perm (submissionRows subs formId includeSpam) ∧
  out.Sorted (fun a b => b.created_at ≤ a.created_at)

/-- The ordering the spec asserts: `created_at` descending, ties broken by
reverse insertion order (larger `rowid` first). Stated from the spec's words
for comparison with `IsQueryResult`. -/
def SpecOrdered (out : List Submission) : Prop :=
  out.Sorted (fun a b =>
    b.created_at < a.created_at ∨
    (a.created_at = b.created_at ∧ b.rowid < a.rowid))

/-- server.js:282-328 — the submissions read endpoint. `token` is the query
parameter and `envToken` is `process.env.DASHBOARD_AUTH_TOKEN` (`none` models
`undefined`); the strict comparison `token !== process.env.DASHBOARD_AUTH_TOKEN`
is checked before the form lookup. On success the body carries the row count;
the row sequence itself is governed by `IsQueryResult` (its tie order is not a
function of the table). -/
def getSubmissionsHandler (envToken : Option String) (st : ServerState)
    (formId : String) (token : Option String) (spamParam : Option String) :
    Response :=
  if token ≠ envToken then unauthorized
  else
    match findForm st.forms formId with
    | none => formNotFound
    | some _ =>
      let includeSpam := spamParam.getD "false" == "true"
      let rows := submissionRows st.submissions formId includeSpam
      ⟨200, [("success", .bool true), ("count", .num rows.length)]⟩

/-- The `datetime('now', '-7 days')` offset, in seconds. -/
def sevenDaysSecs : Int := 604800

/-- server.js:379-382 — the dashboard's "Last 7 Days" statistic:
`SELECT COUNT(*) FROM submissions WHERE form_id = ? AND created_at > datetime('now', '-7 days')`.
Note the query has no `is_spam` condition. -/
def last7Days (subs : List Submission) (formId : String) (now : Int) : Nat :=
  (subs.filter (fun s =>
    s.form_id == formId && now - sevenDaysSecs < s.created_at)).length

/-- The spec's `recentCount`, `count(formId, false, sevenDays)`: non-spam
submissions of the form inside the trailing seven-day window. Stated from the
spec's words for comparison with `last7Days`. -/
def specRecentCount (subs : List Submission) (formId : String) (now : Int) :
    Nat :=
  (subs.filter (fun s =>
    s.form_id == formId && !s.is_spam && now - sevenDaysSecs < s.created_at)).length

/-- Spam submissions of the form inside the trailing seven-day window. -/
def spamRecentCount (subs : List Submission) (formId : String) (now : Int) :
    Nat :=
  (subs.filter (fun s =>
    s.form_id == formId && s.is_spam && now - sevenDaysSecs < s.created_at)).length

/-! ## Helper lemmas -/

lemma lookup_eq_some_mem {α β : Type} [BEq α] [LawfulBEq α]
    {l : List (α × β)} {k : α} {v : β} (h : l.lookup k = some v) :
    (k, v) ∈ l := by
  induction l with
  | nil => simp [List.lookup] at h
  | cons p rest ih =>
    obtain ⟨k', v'⟩ := p
    rw [List.lookup] at h
    by_cases hk : k = k'
    · subst hk
      simp at h
      simp [h]
    · have : (k == k') = false := beq_false_of_ne hk
      rw [this] at h
      exact List.mem_cons_of_mem _ (ih h)

lemma length_filter_lt {α : Type} (p : α → Bool) {l : List α} {a : α}
    (ha : a ∈ l) (hpa : p a = false) :
    (l.filter p).length < l.length := by
  induction l with
  | nil => cases ha
  | cons b rest ih =>
    rcases List.mem_cons.mp ha with hb | hrest
    · subst hb
      rw [List.filter_cons, hpa]
      exact Nat.lt_succ_of_le (List.length_filter_le p rest)
    · rw [List.filter_cons]
      cases hpb : p b
      · exact Nat.lt_succ_of_lt (ih hrest)
      · simpa using Nat.succ_lt_succ (ih hrest)

lemma trim_ne_empty_of_ne {s : String} (h : jsTrim s ≠ "") : s ≠ "" := by
  intro hs
  subst hs
  exact h (by decide)

/-- `isSpam` on a body whose values are all strings is exactly: the honeypot
key is bound to a string that trims to non-empty. -/
lemma isSpam_true_iff_of_strings (h : String) (body : List (String × JSVal))
    (hstr : ∀ p ∈ body, ∃ s, p.2 = JSVal.str s) :
    isSpam h body = true ↔
      ∃ s, jsGet body h = some (JSVal.str s) ∧ jsTrim s ≠ "" := by
  cases hg : jsGet body h with
  | none =>
    simp [isSpam, hg]
  | some v =>
    have hv := lookup_eq_some_mem (l := body) (k := h) (v := v) hg
    obtain ⟨s, hs⟩ := hstr (h, v) hv
    simp only at hs
    subst hs
    simp only [isSpam, hg]
    constructor
    · intro hsp
      refine ⟨s, rfl, ?_⟩
      have := of_decide_eq_true (Bool.and_elim_right hsp)
      simpa [JSVal.render] using this
    · rintro ⟨s', hs', htr⟩
      have hss : s' = s := by
        simpa using hs'.symm
      subst hss
      have hne : s' ≠ "" := trim_ne_empty_of_ne htr
      simp [JSVal.truthy, JSVal.render, hne, htr]

/-! ## Claims -/

/-- C10: a falsy non-string value under the honeypot key (the JSON number 0,
the boolean false, or null) is classified as not spam, even though each of
those renders to a non-empty, non-whitespace string; a bound value is flagged
exactly when it is truthy and its string rendering trims to non-empty. -/
theorem C10_falsy_honeypot_not_spam (h : String) (m : List (String × JSVal)) :
    (isSpam h m = true ↔
      ∃ v, jsGet m h = some v ∧ v.truthy = true ∧ jsTrim v.render ≠ "") ∧
    (∀ v, jsGet m h = some v → v.truthy = false → isSpam h m = false) ∧
    ((JSVal.num 0).truthy = false ∧ (JSVal.num 0).render = "0") ∧
    ((JSVal.bool false).truthy = false ∧ (JSVal.bool false).render = "false") ∧
    (JSVal.null.truthy = false ∧ JSVal.null.render = "null") := by
  refine ⟨?_, ?_, by decide, by decide, by decide⟩
  · cases hg : jsGet m h with
    | none => simp [isSpam, hg]
    | some v =>
      simp only [isSpam, hg]
      constructor
      · intro hsp
        exact ⟨v, rfl, Bool.and_elim_left hsp,
          of_decide_eq_true (Bool.and_elim_right hsp)⟩
      · rintro ⟨v', hv', htr, hren⟩
        have : v' = v := by simpa using hv'.symm
        subst this
        simp [htr, hren]
  · intro v hg hfalse
    simp [isSpam, hg, hfalse]

/-- C10 witness: the concrete body `{"_website": 0}`. -/
theorem C10_falsy_honeypot_not_spam_witness :
    isSpam "_website" [("_website", JSVal.num 0)] = false :=
  (C10_falsy_honeypot_not_spam "_website" [("_website", JSVal.num 0)]).2.1
    (JSVal.num 0) rfl rfl

/-- C1: for a submission (with string field values) that passes the rate
limiter and the form lookup, the stored submission's spam flag is the
classification result, and it is `true` iff the body binds the form's honeypot
field to a value that is non-empty after trimming whitespace; an absent or
blank/whitespace-only value gives `false`. -/
theorem C1_honeypot_classification (windowMs : Int) (maxRequests : Nat)
    (st : ServerState) (formId : String) (body : List (String × JSVal))
    (ip ua : Option String) (newId : String) (now : Int) (form : Form)
    (hadm : (consumeMap windowMs maxRequests st.rl formId now).1 = true)
    (hform : findForm st.forms formId = some form)
    (hstr : ∀ p ∈ body, ∃ s, p.2 = JSVal.str s) :
    ∃ sub : Submission,
      (submitRoute windowMs maxRequests st formId body ip ua newId now).2.submissions
        = st.submissions ++ [sub] ∧
      sub.is_spam = isSpam (honeypotFieldUsed form) body ∧
      (sub.is_spam = true ↔
        ∃ s, jsGet body (honeypotFieldUsed form) = some (JSVal.str s) ∧
          jsTrim s ≠ "") := by
  rcases hcm : consumeMap windowMs maxRequests st.rl formId now with ⟨ok, rl1⟩
  rw [hcm] at hadm
  simp only at hadm
  subst hadm
  refine ⟨⟨newId, formId, body, ip, ua, isSpam (honeypotFieldUsed form) body,
      now, st.submissions.length⟩, ?_, rfl, ?_⟩
  · simp [submitRoute, submitHandler, hcm, hform]
  · exact isSpam_true_iff_of_strings (honeypotFieldUsed form) body hstr

/-- C1 witness: a concrete form with honeypot `_website` and the body
`{"name": "John", "_website": " "}` (whitespace-only honeypot → not spam). -/
theorem C1_honeypot_classification_witness :
    (consumeMap 60000 10 [] "f1" 5).1 = true ∧
    findForm [⟨"f1", none, "owner@example.com", "_website"⟩] "f1"
      = some ⟨"f1", none, "owner@example.com", "_website"⟩ ∧
    ∃ sub : Submission,
      (submitRoute 60000 10
          ⟨[⟨"f1", none, "owner@example.com", "_website"⟩], [], []⟩ "f1"
          [("name", JSVal.str "John"), ("_website", JSVal.str " ")]
          none none "s1" 5).2.submissions
        = [] ++ [sub] ∧
      sub.is_spam = isSpam "_website"
          [("name", JSVal.str "John"), ("_website", JSVal.str " ")] ∧
      (sub.is_spam = true ↔
        ∃ s, jsGet [("name", JSVal.str "John"), ("_website", JSVal.str " ")]
            "_website" = some (JSVal.str s) ∧ jsTrim s ≠ "") := by
  refine ⟨by decide, by decide, ?_⟩
  exact C1_honeypot_classification 60000 10
    ⟨[⟨"f1", none, "owner@example.com", "_website"⟩], [], []⟩ "f1"
    [("name", JSVal.str "John"), ("_website", JSVal.str " ")]
    none none "s1" 5 ⟨"f1", none, "owner@example.com", "_website"⟩
    (by decide) (by decide)
    (by
      intro p hp
      rcases List.mem_cons.mp hp with h1 | h2
      · exact ⟨"John", by rw [h1]⟩
      · have : p = ("_website", JSVal.str " ") := by simpa using h2
        exact ⟨" ", by rw [this]⟩)

/-- Starting from state `s`, a sequence of calls `ts` that all lie inside one
window of each other (and of the entries already in `s`) is admitted in full
while the total count stays within the ceiling; the final state records all of
them in order. -/
lemma runCalls_all_within (windowMs : Int) (maxRequests : Nat) :
    ∀ (ts s : List Int),
      (∀ a ∈ s ++ ts, ∀ b ∈ ts, b - a < windowMs) →
      (s ++ ts).length ≤ maxRequests →
      runCalls windowMs maxRequests s ts = (s ++ ts, true) := by
  intro ts
  induction ts with
  | nil => intro s _ _; simp [runCalls]
  | cons t ts ih =>
    intro s hwin hlen
    have hfil : s.filter (fun x => decide (t - x < windowMs)) = s := by
      refine List.filter_eq_self.mpr ?_
      intro a ha
      exact decide_eq_true (hwin a (List.mem_append_left _ ha) t
        (List.mem_cons_self t ts))
    have hslen : ¬ (maxRequests ≤ s.length) := by
      have : s.length + (ts.length + 1) ≤ maxRequests := by
        simpa [List.length_append] using hlen
      omega
    have hcons : consume windowMs maxRequests s t = (true, s ++ [t]) := by
      simp [consume, hfil, hslen]
    have hih : runCalls windowMs maxRequests (s ++ [t]) ts
        = ((s ++ [t]) ++ ts, true) := by
      refine ih (s ++ [t]) ?_ ?_
      · intro a ha b hb
        have ha' : a ∈ s ++ t :: ts := by
          simpa [List.append_assoc] using ha
        exact hwin a ha' b (List.mem_cons_of_mem t hb)
      · have : (s ++ [t]) ++ ts = s ++ t :: ts := by
          simp [List.append_assoc]
        rw [this]
        exact hlen
    simp only [runCalls, hcons, hih]
    simp [List.append_assoc]

/-- C2: with ceiling `N` and window `W` (ms): a burst of `N` calls that lie
within one window are all allowed and all recorded; an `(N+1)`th call still
within the window of every recorded admission is denied and records no
timestamp (the stored list is returned unchanged); and a call made more than
`W` after the oldest recorded admission is allowed again, because pruned
entries no longer count. -/
theorem C2_rate_limiter_window (W : Int) (N : Nat) (ts : List Int)
    (tDeny tLater old : Int)
    (hwin : ∀ a ∈ ts, ∀ b ∈ ts, b - a < W)
    (hlen : ts.length = N)
    (hdeny : ∀ a ∈ ts, tDeny - a < W)
    (hold : old ∈ ts) (holdest : ∀ a ∈ ts, old ≤ a)
    (hlater : W < tLater - old) :
    runCalls W N [] ts = (ts, true) ∧
    consume W N ts tDeny = (false, ts) ∧
    (consume W N ts tLater).1 = true := by
  refine ⟨?_, ?_, ?_⟩
  · have := runCalls_all_within W N ts []
    simp only [List.nil_append] at this
    exact this hwin (le_of_eq hlen)
  · have hfil : ts.filter (fun x => decide (tDeny - x < W)) = ts := by
      refine List.filter_eq_self.mpr ?_
      intro a ha
      exact decide_eq_true (hdeny a ha)
    simp [consume, hfil, hlen]
  · have hpruned : (decide (tLater - old < W)) = false := by
      have : ¬ (tLater - old < W) := by omega
      exact decide_eq_false this
    have hlt : (ts.filter (fun x => decide (tLater - x < W))).length
        < ts.length :=
      length_filter_lt _ hold hpruned
    have : ¬ (N ≤ (ts.filter (fun x => decide (tLater - x < W))).length) := by
      omega
    simp [consume, this]

/-- C2 witness: window 60000 ms, ceiling 2, burst `[0, 1000]`, denied third
call at 2000, re-admitted call at 70000 (more than a window after the oldest
admission at 0). -/
theorem C2_rate_limiter_window_witness :
    (∀ a ∈ ([0, 1000] : List Int), ∀ b ∈ ([0, 1000] : List Int),
      b - a < 60000) ∧
    ([0, 1000] : List Int).length = 2 ∧
    (∀ a ∈ ([0, 1000] : List Int), (2000 : Int) - a < 60000) ∧
    (0 : Int) ∈ ([0, 1000] : List Int) ∧
    (∀ a ∈ ([0, 1000] : List Int), (0 : Int) ≤ a) ∧
    (60000 : Int) < 70000 - 0 ∧
    (runCalls 60000 2 [] [0, 1000] = ([0, 1000], true) ∧
      consume 60000 2 [0, 1000] 2000 = (false, [0, 1000]) ∧
      (consume 60000 2 [0, 1000] 70000).1 = true) :=
  ⟨by decide, by decide, by decide, by decide, by decide, by decide,
    C2_rate_limiter_window 60000 2 [0, 1000] 2000 70000 0
      (by decide) (by decide) (by decide) (by decide) (by decide) (by decide)⟩

lemma lookup_mapSet_self (m : List (String × Window)) (key : String)
    (v : Window) : (mapSet m key v).lookup key = some v := by
  induction m with
  | nil => simp [mapSet, List.lookup]
  | cons p rest ih =>
    obtain ⟨k, w⟩ := p
    by_cases hk : k = key
    · simp [mapSet, hk, List.lookup]
    · have hbeq : (k == key) = false := beq_false_of_ne hk
      have hbeq' : (key == k) = false := beq_false_of_ne (Ne.symm hk)
      simp [mapSet, hbeq, List.lookup, hbeq', ih]

/-- An allowed `consumeMap` call stores, under its key, the pruned previous
list with `now` appended. -/
lemma consumeMap_true_lookup (windowMs : Int) (maxRequests : Nat)
    (m : List (String × Window)) (key : String) (now : Int)
    (rl1 : List (String × Window))
    (h : consumeMap windowMs maxRequests m key now = (true, rl1)) :
    rl1.lookup key
      = some (((m.lookup key).getD []).filter (fun t => now - t < windowMs)
          ++ [now]) := by
  rcases hc : consume windowMs maxRequests ((m.lookup key).getD []) now
    with ⟨ok, upd⟩
  cases ok with
  | false =>
    rw [consumeMap, hc] at h
    simp at h
  | true =>
    rw [consumeMap, hc] at h
    simp only [Prod.mk.injEq, true_and] at h
    have hupd : upd
        = ((m.lookup key).getD []).filter (fun t => now - t < windowMs)
          ++ [now] := by
      rw [consume] at hc
      by_cases hcond : maxRequests ≤
          (((m.lookup key).getD []).filter
            (fun t => decide (now - t < windowMs))).length
      · simp [hcond] at hc
      · simp [hcond] at hc
        exact hc.symm
    rw [← h, hupd]
    exact lookup_mapSet_self ..

/-- C6: a submit whose rate-limit admission succeeds but whose form identifier
matches no form terminates with the not-found rejection; no submission record
is appended; the rate limiter's window state for that key has nonetheless
recorded the attempt (admission runs before the form lookup). -/
theorem C6_unknown_form_throttled (windowMs : Int) (maxRequests : Nat)
    (st : ServerState) (formId : String) (body : List (String × JSVal))
    (ip ua : Option String) (newId : String) (now : Int)
    (rl1 : List (String × Window))
    (hadm : consumeMap windowMs maxRequests st.rl formId now = (true, rl1))
    (hform : findForm st.forms formId = none) :
    (submitRoute windowMs maxRequests st formId body ip ua newId now).1
      = formNotFound ∧
    (submitRoute windowMs maxRequests st formId body ip ua newId now).2.submissions
      = st.submissions ∧
    ∃ w, rl1.lookup formId = some w ∧ now ∈ w := by
  refine ⟨?_, ?_, ?_⟩
  · simp [submitRoute, submitHandler, hadm, hform]
  · simp [submitRoute, submitHandler, hadm, hform]
  · refine ⟨((st.rl.lookup formId).getD []).filter
        (fun t => now - t < windowMs) ++ [now],
      consumeMap_true_lookup windowMs maxRequests st.rl formId now rl1 hadm,
      ?_⟩
    simp

/-- C6 witness: a submit to the unknown identifier `"ghost"` against a state
whose forms table is empty. -/
theorem C6_unknown_form_throttled_witness :
    consumeMap 60000 10 ([] : List (String × Window)) "ghost" 5
      = (true, [("ghost", [5])]) ∧
    findForm ([] : List Form) "ghost" = none ∧
    ((submitRoute 60000 10 ⟨[], [], []⟩ "ghost" [] none none "s1" 5).1
        = formNotFound ∧
      (submitRoute 60000 10 ⟨[], [], []⟩ "ghost" [] none none "s1" 5).2.submissions
        = [] ∧
      ∃ w, ([("ghost", [5])] : List (String × Window)).lookup "ghost" = some w ∧
        (5 : Int) ∈ w) :=
  ⟨by decide, by decide,
    C6_unknown_form_throttled 60000 10 ⟨[], [], []⟩ "ghost" [] none none "s1" 5
      [("ghost", [5])] (by decide) (by decide)⟩

/-- C5: any two submissions that both reach the storage step — one classified
spam, the other not — receive identical caller-visible outcomes: the same
status 200 and the same payload, whose only fields are `success` and
`message` (nothing reveals the classification). -/
theorem C5_no_spam_leak (windowMs : Int) (maxRequests : Nat)
    (st₁ st₂ : ServerState) (formId : String)
    (body₁ body₂ : List (String × JSVal)) (ip₁ ua₁ ip₂ ua₂ : Option String)
    (id₁ id₂ : String) (now₁ now₂ : Int) (form₁ form₂ : Form)
    (hadm₁ : (consumeMap windowMs maxRequests st₁.rl formId now₁).1 = true)
    (hform₁ : findForm st₁.forms formId = some form₁)
    (hadm₂ : (consumeMap windowMs maxRequests st₂.rl formId now₂).1 = true)
    (hform₂ : findForm st₂.forms formId = some form₂)
    (hspam : isSpam (honeypotFieldUsed form₁) body₁ = true)
    (hham : isSpam (honeypotFieldUsed form₂) body₂ = false) :
    (submitRoute windowMs maxRequests st₁ formId body₁ ip₁ ua₁ id₁ now₁).1
      = (submitRoute windowMs maxRequests st₂ formId body₂ ip₂ ua₂ id₂ now₂).1 ∧
    (submitRoute windowMs maxRequests st₁ formId body₁ ip₁ ua₁ id₁ now₁).1
      = submitOk ∧
    submitOk.body.map Prod.fst = ["success", "message"] := by
  rcases hc₁ : consumeMap windowMs maxRequests st₁.rl formId now₁ with ⟨ok₁, rl₁⟩
  rcases hc₂ : consumeMap windowMs maxRequests st₂.rl formId now₂ with ⟨ok₂, rl₂⟩
  rw [hc₁] at hadm₁
  rw [hc₂] at hadm₂
  simp only at hadm₁ hadm₂
  subst hadm₁
  subst hadm₂
  refine ⟨?_, ?_, by decide⟩
  · simp [submitRoute, submitHandler, hc₁, hc₂, hform₁, hform₂]
  · simp [submitRoute, submitHandler, hc₁, hform₁]

/-- C5 witness: spam submission `{"_website": "spam.com"}` and legitimate
submission `{"name": "John"}` to the same form, from the same initial state. -/
theorem C5_no_spam_leak_witness :
    (consumeMap 60000 10 [] "f1" 5).1 = true ∧
    findForm [⟨"f1", none, "owner@example.com", "_website"⟩] "f1"
      = some ⟨"f1", none, "owner@example.com", "_website"⟩ ∧
    isSpam "_website" [("_website", JSVal.str "spam.com")] = true ∧
    isSpam "_website" [("name", JSVal.str "John")] = false ∧
    ((submitRoute 60000 10 ⟨[⟨"f1", none, "owner@example.com", "_website"⟩], [], []⟩
        "f1" [("_website", JSVal.str "spam.com")] none none "s1" 5).1
      = (submitRoute 60000 10 ⟨[⟨"f1", none, "owner@example.com", "_website"⟩], [], []⟩
        "f1" [("name", JSVal.str "John")] none none "s2" 6).1 ∧
      (submitRoute 60000 10 ⟨[⟨"f1", none, "owner@example.com", "_website"⟩], [], []⟩
        "f1" [("_website", JSVal.str "spam.com")] none none "s1" 5).1
      = submitOk ∧
      submitOk.body.map Prod.fst = ["success", "message"]) :=
  ⟨by decide, by decide, by decide, by decide,
    C5_no_spam_leak 60000 10
      ⟨[⟨"f1", none, "owner@example.com", "_website"⟩], [], []⟩
      ⟨[⟨"f1", none, "owner@example.com", "_website"⟩], [], []⟩
      "f1" [("_website", JSVal.str "spam.com")] [("name", JSVal.str "John")]
      none none none none "s1" "s2" 5 6
      ⟨"f1", none, "owner@example.com", "_website"⟩
      ⟨"f1", none, "owner@example.com", "_website"⟩
      (by decide) (by decide) (by decide) (by decide) (by decide) (by decide)⟩

/-- C4 counterexample: with the store write committed and the notification
step raising an error (`notifyOk = false`, modelling a rejection of the
awaited `mockSendEmail` call), the caller receives the 500 internal error,
not the success acknowledgment — the submit route's only catch block
(server.js:275-278) wraps the notification call too. The stored submission
is not rolled back. -/
theorem C4_counterexample :
    (submitHandler 60000 10 ⟨[⟨"f1", none, "owner@example.com", "_website"⟩], [], []⟩
        "f1" [("name", JSVal.str "J")] none none "s1" 5 false).1 ≠ submitOk ∧
    (submitHandler 60000 10 ⟨[⟨"f1", none, "owner@example.com", "_website"⟩], [], []⟩
        "f1" [("name", JSVal.str "J")] none none "s1" 5 false).1 = submitFailed ∧
    (submitHandler 60000 10 ⟨[⟨"f1", none, "owner@example.com", "_website"⟩], [], []⟩
        "f1" [("name", JSVal.str "J")] none none "s1" 5 false).2.submissions ≠ [] := by
  refine ⟨by decide, by decide, by decide⟩

/-- C4 (amended): if the notification step raises after a successful store
write, the stored submission is not rolled back, but the caller receives the
internal-error response `500 "Submission failed"` instead of the success
acknowledgment. (In the shipped code the notifier `mockSendEmail` never
raises, so this path is never taken in practice.) -/
theorem C4_notify_error_no_rollback (windowMs : Int) (maxRequests : Nat)
    (st : ServerState) (formId : String) (body : List (String × JSVal))
    (ip ua : Option String) (newId : String) (now : Int) (form : Form)
    (hadm : (consumeMap windowMs maxRequests st.rl formId now).1 = true)
    (hform : findForm st.forms formId = some form) :
    ∃ sub : Submission,
      (submitHandler windowMs maxRequests st formId body ip ua newId now
          false).2.submissions = st.submissions ++ [sub] ∧
      (submitHandler windowMs maxRequests st formId body ip ua newId now
          false).1 = submitFailed ∧
      submitFailed ≠ submitOk := by
  rcases hc : consumeMap windowMs maxRequests st.rl formId now with ⟨ok, rl1⟩
  rw [hc] at hadm
  simp only at hadm
  subst hadm
  refine ⟨⟨newId, formId, body, ip, ua, isSpam (honeypotFieldUsed form) body,
      now, st.submissions.length⟩, ?_, ?_, by decide⟩
  · simp [submitHandler, hc, hform]
  · simp [submitHandler, hc, hform]

/-- C4 witness: the same concrete call as the counterexample. -/
theorem C4_notify_error_no_rollback_witness :
    (consumeMap 60000 10 [] "f1" 5).1 = true ∧
    findForm [⟨"f1", none, "owner@example.com", "_website"⟩] "f1"
      = some ⟨"f1", none, "owner@example.com", "_website"⟩ ∧
    ∃ sub : Submission,
      (submitHandler 60000 10
          ⟨[⟨"f1", none, "owner@example.com", "_website"⟩], [], []⟩
          "f1" [("name", JSVal.str "J")] none none "s1" 5 false).2.submissions
        = [] ++ [sub] ∧
      (submitHandler 60000 10
          ⟨[⟨"f1", none, "owner@example.com", "_website"⟩], [], []⟩
          "f1" [("name", JSVal.str "J")] none none "s1" 5 false).1
        = submitFailed ∧
      submitFailed ≠ submitOk :=
  ⟨by decide, by decide,
    C4_notify_error_no_rollback 60000 10
      ⟨[⟨"f1", none, "owner@example.com", "_website"⟩], [], []⟩
      "f1" [("name", JSVal.str "J")] none none "s1" 5
      ⟨"f1", none, "owner@example.com", "_website"⟩ (by decide) (by decide)⟩

/-- C9: on the submissions read endpoint the shared-secret comparison runs
before the form lookup, so a request with a wrong token is answered 401
Unauthorized for every form identifier and every table state — form existence
is not revealed without the correct token. -/
theorem C9_auth_before_lookup (envToken token : Option String)
    (st st' : ServerState) (formId formId' : String)
    (spamParam spamParam' : Option String)
    (h : token ≠ envToken) :
    getSubmissionsHandler envToken st formId token spamParam = unauthorized ∧
    getSubmissionsHandler envToken st formId token spamParam
      = getSubmissionsHandler envToken st' formId' token spamParam' := by
  constructor
  · simp [getSubmissionsHandler, h]
  · simp [getSubmissionsHandler, h]

/-- C9 witness: wrong token `"wrong"` against secret `"secret"`, one state
holding form `"f1"` and one empty state. -/
theorem C9_auth_before_lookup_witness :
    (some "wrong" : Option String) ≠ some "secret" ∧
    (getSubmissionsHandler (some "secret")
        ⟨[⟨"f1", none, "owner@example.com", "_website"⟩], [], []⟩
        "f1" (some "wrong") none = unauthorized ∧
      getSubmissionsHandler (some "secret")
        ⟨[⟨"f1", none, "owner@example.com", "_website"⟩], [], []⟩
        "f1" (some "wrong") none
      = getSubmissionsHandler (some "secret") ⟨[], [], []⟩ "missing"
          (some "wrong") none) :=
  ⟨by decide,
    C9_auth_before_lookup (some "secret") (some "wrong")
      ⟨[⟨"f1", none, "owner@example.com", "_website"⟩], [], []⟩ ⟨[], [], []⟩
      "f1" "missing" none none (by decide)⟩

/-- C3 counterexample: a single spam submission created at time 1000, queried
at time 1000 (well inside the seven-day window). The dashboard statistic
counts it, the spec's `recentCount` does not. -/
theorem C3_counterexample :
    last7Days [⟨"s1", "f1", [], none, none, true, 1000, 0⟩] "f1" 1000 = 1 ∧
    specRecentCount [⟨"s1", "f1", [], none, none, true, 1000, 0⟩] "f1" 1000
      = 0 ∧
    last7Days [⟨"s1", "f1", [], none, none, true, 1000, 0⟩] "f1" 1000
      ≠ specRecentCount [⟨"s1", "f1", [], none, none, true, 1000, 0⟩] "f1"
          1000 := by
  refine ⟨by decide, by decide, by decide⟩

/-- C3 (amended): the dashboard's "Last 7 Days" statistic counts every
submission of the form inside the trailing seven-day window regardless of the
spam flag — it equals the spec's non-spam `recentCount` plus the spam
submissions of the same window. -/
theorem C3_last7days_includes_spam (subs : List Submission) (formId : String)
    (now : Int) :
    last7Days subs formId now
      = specRecentCount subs formId now + spamRecentCount subs formId now := by
  induction subs with
  | nil => rfl
  | cons s rest ih =>
    simp only [last7Days, specRecentCount, spamRecentCount] at ih ⊢
    rw [List.filter_cons, List.filter_cons, List.filter_cons]
    by_cases h1 : s.form_id = formId
    · cases h2 : s.is_spam
      · by_cases h3 : now - sevenDaysSecs < s.created_at
        · simp [h1, h2, h3]
          omega
        · simp [h1, h2, h3]
          omega
      · by_cases h3 : now - sevenDaysSecs < s.created_at
        · simp [h1, h2, h3]
          omega
        · simp [h1, h2, h3]
          omega
    · have hbeq : (s.form_id == formId) = false := beq_false_of_ne h1
      simp [hbeq]
      omega

/-- Two non-spam rows of form `f1` sharing the coarse second-resolution
`created_at` value 100; `rowB` was inserted after `rowA`. -/
def rowA : Submission := ⟨"a", "f1", [], none, none, false, 100, 0⟩

/-- See `rowA`. -/
def rowB : Submission := ⟨"b", "f1", [], none, none, false, 100, 1⟩

/-- C7 counterexample: with two equal-timestamp rows, the result that lists
them in insertion order (`rowA` before `rowB`) satisfies everything the
query `ORDER BY created_at DESC` pins down, yet violates the claimed
most-recently-inserted-first tie-break. The claimed ordering is therefore not
guaranteed by the code. -/
theorem C7_counterexample :
    IsQueryResult [rowA, rowB] "f1" false [rowA, rowB] ∧
    ¬ SpecOrdered [rowA, rowB] := by
  constructor
  · constructor
    · have h : submissionRows [rowA, rowB] "f1" false = [rowA, rowB] := by
        decide
      rw [h]
    · decide
  · unfold SpecOrdered
    decide

/-- C7 (amended): every possible result of the submissions query is ordered
by creation timestamp descending and contains exactly the form's submissions
(minus the spam-flagged ones when `includeSpam` is false); the relative order
of entries with identical timestamps is unspecified — the query has no
secondary sort key, so reverse insertion order is not guaranteed. -/
theorem C7_list_ordered_and_filtered (subs : List Submission) (formId : String)
    (includeSpam : Bool) (out : List Submission)
    (h : IsQueryResult subs formId includeSpam out) :
    out.Sorted (fun a b => b.created_at ≤ a.created_at) ∧
    (∀ s ∈ out, s.form_id = formId ∧
      (includeSpam = false → s.is_spam = false)) ∧
    (∀ s ∈ subs, s.form_id = formId →
      (includeSpam = true ∨ s.is_spam = false) → s ∈ out) := by
  obtain ⟨hperm, hsort⟩ := h
  refine ⟨hsort, ?_, ?_⟩
  · intro s hs
    have hmem : s ∈ submissionRows subs formId includeSpam :=
      hperm.mem_iff.mp hs
    rw [submissionRows, List.mem_filter] at hmem
    obtain ⟨_, hcond⟩ := hmem
    have hform : (s.form_id == formId) = true := Bool.and_elim_left hcond
    refine ⟨eq_of_beq hform, ?_⟩
    intro hfalse
    have hsp : (includeSpam || !s.is_spam) = true := Bool.and_elim_right hcond
    rw [hfalse] at hsp
    simpa using hsp
  · intro s hs hform hsp
    apply hperm.mem_iff.mpr
    rw [submissionRows, List.mem_filter]
    refine ⟨hs, ?_⟩
    have h1 : (s.form_id == formId) = true := by
      exact beq_iff_eq.mpr hform
    rw [h1, Bool.true_and]
    rcases hsp with h2 | h2
    · rw [h2]; rfl
    · rw [h2]
      simp

/-- C7 witness: the singleton table `[rowA]` with its only possible result. -/
theorem C7_list_ordered_and_filtered_witness :
    IsQueryResult [rowA] "f1" false [rowA] ∧
    (([rowA] : List Submission).Sorted
        (fun a b => b.created_at ≤ a.created_at) ∧
      (∀ s ∈ ([rowA] : List Submission), s.form_id = "f1" ∧
        (false = false → s.is_spam = false)) ∧
      (∀ s ∈ ([rowA] : List Submission), s.form_id = "f1" →
        (false = true ∨ s.is_spam = false) → s ∈ ([rowA] : List Submission))) :=
  have h : IsQueryResult [rowA] "f1" false [rowA] := by
    constructor
    · have h : submissionRows [rowA] "f1" false = [rowA] := by decide
      rw [h]
    · decide
  ⟨h, C7_list_ordered_and_filtered [rowA] "f1" false [rowA] h⟩

/-- C8 counterexample: a form created with an explicitly empty
`honeypot_field` stores the empty string, and classification uses it as-is —
the name used for the lookup is empty, and a body carrying the empty key is
even flagged as spam through it. -/
theorem C8_counterexample :
    honeypotFieldUsed (createForm "f1" none "owner@example.com" (some ""))
      = "" ∧
    isSpam (honeypotFieldUsed (createForm "f1" none "owner@example.com"
        (some ""))) [("", JSVal.str "x")] = true := by
  refine ⟨by decide, by decide⟩

/-- C8 (amended): the default sentinel `_website` is substituted only when the
create request omits the honeypot field entirely; any explicitly supplied
string — including the empty string — is stored and used verbatim for
classification, so the name used for the lookup can be empty. -/
theorem C8_honeypot_default_only_when_absent :
    (∀ (id : String) (name : Option String) (email : String),
      honeypotFieldUsed (createForm id name email none) = "_website" ∧
      honeypotFieldUsed (createForm id name email none) ≠ "") ∧
    (∀ (id : String) (name : Option String) (email hp : String),
      honeypotFieldUsed (createForm id name email (some hp)) = hp) := by
  constructor
  · intro id name email
    refine ⟨rfl, ?_⟩
    intro h
    have h' : ("_website" : String) = "" := h
    exact absurd h' (by decide)
  · intro id name email hp
    rfl

end FormBackend
